import Mathlib

/-!
# Verification of the XHS auto-publisher core

A shallow embedding, in Lean 4, of the publishing pipeline of the `xhs`
repository: the content lifecycle (store, manager, validation,
deduplication), the publisher's retry wrapper and mode state machines,
the session manager's login flow, and the workflow orchestrator.  Python
functions are translated to Lean definitions; the statements below settle
the testable properties of the specification against the code.

Modelling conventions:
* SQLite rows become a list of `Content` records; `datetime.now()` becomes
  an explicit `now : Nat` parameter.
* Selenium / filesystem effects become explicit oracles: a record of the
  boolean/optional outcomes the code reads back from the outside world.
* Machine-level values are `Nat` with explicit `% 2^32` reduction (MD5).
-/

namespace Xhs

/-! ## MD5 (`hashlib.md5`), used by `generate_content_hash`

A direct embedding of the MD5 digest over a byte list, with 32-bit words
represented as `Nat` reduced modulo `2^32`. -/

namespace Md5

/-- The word modulus `2^32`. -/
def M32 : Nat := 4294967296

/-- Addition modulo `2^32`. -/
def add32 (a b : Nat) : Nat := (a + b) % M32

/-- Left-rotation of a 32-bit word by `n` bits. -/
def rotl (x n : Nat) : Nat := ((x <<< n) % M32) ||| (x >>> (32 - n))

/-- Bitwise complement of a 32-bit word. -/
def comp32 (x : Nat) : Nat := 4294967295 ^^^ x

/-- Round function for rounds 0–15. -/
def fF (x y z : Nat) : Nat := (x &&& y) ||| (comp32 x &&& z)

/-- Round function for rounds 16–31. -/
def fG (x y z : Nat) : Nat := (x &&& z) ||| (y &&& comp32 z)

/-- Round function for rounds 32–47. -/
def fH (x y z : Nat) : Nat := x ^^^ y ^^^ z

/-- Round function for rounds 48–63. -/
def fI (x y z : Nat) : Nat := y ^^^ (x ||| comp32 z)

/-- Per-round left-rotation amounts. -/
def sTable : List Nat :=
  [7, 12, 17, 22, 7, 12, 17, 22, 7, 12, 17, 22, 7, 12, 17, 22,
   5, 9, 14, 20, 5, 9, 14, 20, 5, 9, 14, 20, 5, 9, 14, 20,
   4, 11, 16, 23, 4, 11, 16, 23, 4, 11, 16, 23, 4, 11, 16, 23,
   6, 10, 15, 21, 6, 10, 15, 21, 6, 10, 15, 21, 6, 10, 15, 21]

/-- Per-round additive constants, `floor(abs(sin(i+1)) * 2^32)`. -/
def kTable : List Nat :=
  [3614090360, 3905402710, 606105819, 3250441966, 4118548399, 1200080426, 2821735955, 4249261313,
   1770035416, 2336552879, 4294925233, 2304563134, 1804603682, 4254626195, 2792965006, 1236535329,
   4129170786, 3225465664, 643717713, 3921069994, 3593408605, 38016083, 3634488961, 3889429448,
   568446438, 3275163606, 4107603335, 1163531501, 2850285829, 4243563512, 1735328473, 2368359562,
   4294588738, 2272392833, 1839030562, 4259657740, 2763975236, 1272893353, 4139469664, 3200236656,
   681279174, 3936430074, 3572445317, 76029189, 3654602809, 3873151461, 530742520, 3299628645,
   4096336452, 1126891415, 2878612391, 4237533241, 1700485571, 2399980690, 4293915773, 2240044497,
   1873313359, 4264355552, 2734768916, 1309151649, 4149444226, 3174756917, 718787259, 3951481745]

/-- One MD5 round: `msg` maps a word index to the corresponding
little-endian message word of the current chunk. -/
def roundOp (msg : Nat → Nat) (st : Nat × Nat × Nat × Nat) (i : Nat) :
    Nat × Nat × Nat × Nat :=
  let a := st.1
  let b := st.2.1
  let c := st.2.2.1
  let d := st.2.2.2
  let fg : Nat × Nat :=
    if i < 16 then (fF b c d, i)
    else if i < 32 then (fG b c d, (5 * i + 1) % 16)
    else if i < 48 then (fH b c d, (3 * i + 5) % 16)
    else (fI b c d, (7 * i) % 16)
  let t := add32 (add32 (add32 fg.1 a) (kTable.getD i 0)) (msg fg.2)
  (d, add32 b (rotl t (sTable.getD i 0)), b, c)

/-- The `j`-th little-endian 32-bit word of a 64-byte chunk. -/
def chunkWord (chunk : List Nat) (j : Nat) : Nat :=
  chunk.getD (4 * j) 0 + 256 * chunk.getD (4 * j + 1) 0 +
    65536 * chunk.getD (4 * j + 2) 0 + 16777216 * chunk.getD (4 * j + 3) 0

/-- Process one 64-byte chunk, updating the four-word state. -/
def processChunk (st : Nat × Nat × Nat × Nat) (chunk : List Nat) :
    Nat × Nat × Nat × Nat :=
  let r := (List.range 64).foldl (roundOp (chunkWord chunk)) st
  (add32 st.1 r.1, add32 st.2.1 r.2.1, add32 st.2.2.1 r.2.2.1, add32 st.2.2.2 r.2.2.2)

/-- MD5 padding: `0x80`, zero bytes up to 56 mod 64, then the bit length
as eight little-endian bytes. -/
def padMessage (msg : List Nat) : List Nat :=
  let len := msg.length
  let bitLen := (8 * len) % (2 ^ 64)
  let zeros := (120 - ((len + 1) % 64)) % 64
  msg ++ [128] ++ List.replicate zeros 0 ++
    ((List.range 8).map fun i => (bitLen >>> (8 * i)) % 256)

/-- Split a byte list into 64-byte chunks (fuel-driven, fuel ≥ length). -/
def chunksAux : Nat → List Nat → List (List Nat)
  | 0, _ => []
  | _, [] => []
  | fuel + 1, l => l.take 64 :: chunksAux fuel (l.drop 64)

/-- The 16-byte MD5 digest of a byte list. -/
def md5Bytes (msg : List Nat) : List Nat :=
  let padded := padMessage msg
  let st := (chunksAux padded.length padded).foldl processChunk
    (1732584193, 4023233417, 2562383102, 271733878)
  ([st.1, st.2.1, st.2.2.1, st.2.2.2]).flatMap fun w =>
    (List.range 4).map fun i => (w >>> (8 * i)) % 256

/-- A lowercase hexadecimal digit. -/
def hexDigit (n : Nat) : Char :=
  if n < 10 then Char.ofNat (48 + n) else Char.ofNat (87 + n)

/-- Two-character lowercase hex rendering of one byte. -/
def byteToHex (b : Nat) : List Char := [hexDigit (b / 16), hexDigit (b % 16)]

/-- UTF-8 encoding of a character (`str.encode("utf-8")`). -/
def utf8Bytes (c : Char) : List Nat :=
  let n := c.toNat
  if n < 128 then [n]
  else if n < 2048 then [192 + n / 64, 128 + n % 64]
  else if n < 65536 then [224 + n / 4096, 128 + (n / 64) % 64, 128 + n % 64]
  else [240 + n / 262144, 128 + (n / 4096) % 64, 128 + (n / 64) % 64, 128 + n % 64]

/-- UTF-8 bytes of a string. -/
def strUtf8 (s : String) : List Nat := s.data.flatMap utf8Bytes

/-- Computes `hashlib.md5(s.encode("utf-8")).hexdigest()`. -/
def md5Hex (s : String) : String := ⟨(md5Bytes (strUtf8 s)).flatMap byteToHex⟩

end Md5

/-! ## `src/utils/helpers.py` -/

/-- Embeds `generate_content_hash(title, body)`:
`hashlib.md5(f"{title}:{body}".encode("utf-8")).hexdigest()`. -/
def generate_content_hash (title body : String) : String :=
  Md5.md5Hex (title ++ ":" ++ body)

/-- Whitespace in the sense of Python's `str.strip()` / `str.isspace()`,
by Unicode codepoint: TAB..CR, space, FS..US, NEL, NBSP, Ogham space,
EN QUAD..HAIR SPACE, LS, PS, NNBSP, MMSP, ideographic space. -/
def pyIsSpace (c : Char) : Bool :=
  let n := c.toNat
  (9 ≤ n && n ≤ 13) || n = 32 || (28 ≤ n && n ≤ 31) || n = 133 || n = 160 ||
  n = 5760 || (8192 ≤ n && n ≤ 8202) || n = 8232 || n = 8233 || n = 8239 ||
  n = 8287 || n = 12288

/-- Python `s.strip()`: drop leading and trailing whitespace. -/
def pyStrip (s : String) : String :=
  ⟨((s.data.dropWhile pyIsSpace).reverse.dropWhile pyIsSpace).reverse⟩

/-- Helper for `hasRunGe`: `prev` is the current run's character and
`run` its length so far. -/
def hasRunGeAux (bound : Nat) : List Char → Char → Nat → Bool
  | [], _, run => run ≥ bound
  | c :: rest, prev, run =>
    if c = prev then hasRunGeAux bound rest prev (run + 1)
    else run ≥ bound || hasRunGeAux bound rest c 1

/-- Whether the text contains some character occurring at least `bound`
times consecutively. -/
def hasRunGe (bound : Nat) (cs : List Char) : Bool :=
  match cs with
  | [] => false
  | c :: rest => hasRunGeAux bound rest c 1

/-- Whether `re.search(r"(.)\1{10,}", s)` matches: the text contains some
character occurring at least 11 times consecutively (the captured
character plus at least ten backreference repetitions). -/
def hasLongRun (cs : List Char) : Bool := hasRunGe 11 cs

/-- Whether `re.search(r"[\u0000-\u001F]", s)` matches: the text contains
a raw control character. -/
def hasControlChar (cs : List Char) : Bool :=
  cs.any fun c => c.toNat ≤ 31

/-- Embeds `validate_content(title, body)` from `src/utils/helpers.py`.
Returns `(is_valid, error_message)`.  Note that the code applies the spam
patterns to the single string `title + body`. -/
def validate_content (title body : String) : Bool × String :=
  if title.data.all pyIsSpace then (false, "Title cannot be empty")
  else if title.length > 100 then (false, "Title too long (max 100 characters)")
  else if body.data.all pyIsSpace then (false, "Body cannot be empty")
  else if body.length > 10000 then (false, "Body too long (max 10000 characters)")
  else if hasLongRun (title ++ body).data then (false, "Content contains invalid patterns")
  else if hasControlChar (title ++ body).data then (false, "Content contains invalid patterns")
  else (true, "")

/-- Split a character list at every occurrence of `sep`
(Python `str.split(sep)` over the characters). -/
def splitOnCharAux (sep : Char) : List Char → List Char → List (List Char)
  | [], acc => [acc.reverse]
  | c :: rest, acc =>
    if c = sep then acc.reverse :: splitOnCharAux sep rest []
    else splitOnCharAux sep rest (c :: acc)

/-- Python `s.split(sep)` for a one-character separator. -/
def splitOnChar (sep : Char) (cs : List Char) : List (List Char) :=
  splitOnCharAux sep cs []

/-- ASCII lowercasing of one character (`str.lower()` restricted to the
ASCII range, which is all the extension comparison needs). -/
def asciiLower (c : Char) : Char :=
  if 65 ≤ c.toNat && c.toNat ≤ 90 then Char.ofNat (c.toNat + 32) else c

/-- Embeds `get_image_extension(filename)`: the lowercase final suffix of
the path's last component, without the dot (`pathlib.Path(...).suffix`
followed by `.lower().lstrip(".")`).  A suffix exists only when the last
component has a dot that is neither its first nor its last character. -/
def get_image_extension (filename : String) : String :=
  let name := (splitOnChar '/' filename.data).getLastD []
  let parts := splitOnChar '.' name
  match parts with
  | [] => ""
  | [_] => ""
  | ps =>
    if (ps.getLastD []).isEmpty || (ps.length = 2 && (ps.headD []).isEmpty) then ""
    else ⟨(ps.getLastD []).map asciiLower⟩

/-- Embeds `is_valid_image(filename)`: extension in the allow list. -/
def is_valid_image (filename : String) : Bool :=
  ["jpg", "jpeg", "png", "gif", "webp", "bmp"].contains (get_image_extension filename)

/-! ## `src/content/database.py`

SQLite is modelled as an in-memory list of rows plus the AUTOINCREMENT
counter.  `datetime.now()` becomes an explicit `now : Nat` argument of
every operation that reads the clock. -/

/-- The `ContentStatus` enum. -/
inductive ContentStatus
  | pending
  | approved
  | published
  | rejected
  | failed
deriving DecidableEq, Repr

/-- The `ContentSource` enum. -/
inductive ContentSource
  | manual
  | fetched
deriving DecidableEq, Repr

/-- The `PublishMode` enum. -/
inductive PublishMode
  | image_text_upload
  | image_text_compose
  | long_article
deriving DecidableEq, Repr

/-- One row of the `content` table (the `Content` model). -/
structure Content where
  id : Nat
  title : String
  body : String
  images : List String
  source : ContentSource
  status : ContentStatus
  publish_mode : PublishMode
  created_at : Nat
  published_at : Option Nat
  error_message : Option String
deriving DecidableEq, Repr

/-- The `content` table plus its AUTOINCREMENT counter. -/
structure Database where
  rows : List Content
  next_id : Nat
deriving DecidableEq, Repr

/-- A freshly initialised empty database (AUTOINCREMENT starts at 1). -/
def Database.empty : Database := { rows := [], next_id := 1 }

/-- Embeds `Database.create_content`: the INSERT lists only
`(title, body, images, source, status, publish_mode, created_at)`, so the
stored row always has NULL `published_at` and `error_message`.  Returns
`cursor.lastrowid`. -/
def Database.create_content (db : Database) (c : Content) : Database × Nat :=
  let row := { c with
    id := db.next_id
    published_at := none
    error_message := none }
  ({ rows := db.rows ++ [row], next_id := db.next_id + 1 }, db.next_id)

/-- Embeds `Database.get_content`: `SELECT * FROM content WHERE id = ?`. -/
def Database.get_content (db : Database) (content_id : Nat) : Option Content :=
  db.rows.find? fun c => c.id == content_id

/-- Embeds `Database.update_status`: an unconditional
`UPDATE content SET status = ?, published_at = ?, error_message = ? WHERE id = ?`
where `published_at` is `datetime.now()` when the new status is
`published` and NULL otherwise, and `error_message` is the passed value
(NULL by default).  Returns `conn.total_changes > 0`, i.e. whether a row
with that id existed. -/
def Database.update_status (db : Database) (content_id : Nat)
    (status : ContentStatus) (error_message : Option String) (now : Nat) :
    Database × Bool :=
  let published_at : Option Nat :=
    if status = ContentStatus.published then some now else none
  let rows := db.rows.map fun c =>
    if c.id == content_id then
      { c with status := status, published_at := published_at, error_message := error_message }
    else c
  ({ db with rows := rows }, db.rows.any fun c => c.id == content_id)

/-- Embeds `Database.delete_content`: `DELETE FROM content WHERE id = ?`,
returning `conn.total_changes > 0`. -/
def Database.delete_content (db : Database) (content_id : Nat) : Database × Bool :=
  ({ db with rows := db.rows.filter fun c => c.id != content_id },
   db.rows.any fun c => c.id == content_id)

/-! ## `src/content/manager.py` -/

/-- The `ContentManager`: the database plus the in-memory duplicate-detection
hash cache (`self._content_hashes`, a Python set modelled as a list
queried through `contains`). -/
structure ContentManager where
  db : Database
  content_hashes : List String
deriving DecidableEq, Repr

/-- A manager over a fresh empty database: `_load_content_hashes` finds
no rows, so the cache starts empty. -/
def ContentManager.empty : ContentManager := { db := Database.empty, content_hashes := [] }

/-- Embeds `ContentManager.create_content`: builds a `Content` with
status `pending` and inserts it. -/
def ContentManager.create_content (m : ContentManager) (title body : String)
    (images : List String) (source : ContentSource) (publish_mode : PublishMode)
    (now : Nat) : ContentManager × Nat :=
  let c : Content := {
    id := 0
    title := title
    body := body
    images := images
    source := source
    status := ContentStatus.pending
    publish_mode := publish_mode
    created_at := now
    published_at := none
    error_message := none }
  let r := m.db.create_content c
  ({ m with db := r.1 }, r.2)

/-- Embeds `ContentManager.validate_and_create`: validation, then the
per-image extension check (first offending image reported), then the
duplicate check against the hash cache, then creation plus cache update.
Returns the manager's new state and `(content_id or None, error)`. -/
def ContentManager.validate_and_create (m : ContentManager) (title body : String)
    (images : List String) (source : ContentSource) (publish_mode : PublishMode)
    (check_duplicates : Bool) (now : Nat) :
    ContentManager × Option Nat × String :=
  let v := validate_content title body
  if !v.1 then (m, none, v.2)
  else
    match images.find? (fun img => !is_valid_image img) with
    | some img => (m, none, "Invalid image file: " ++ img)
    | none =>
      if check_duplicates && m.content_hashes.contains (generate_content_hash title body) then
        (m, none, "Duplicate content detected")
      else
        let r := m.create_content title body images source publish_mode now
        ({ r.1 with content_hashes := generate_content_hash title body :: r.1.content_hashes },
         some r.2, "")

/-- Embeds `ContentManager.get_content`. -/
def ContentManager.get_content (m : ContentManager) (content_id : Nat) : Option Content :=
  m.db.get_content content_id

/-- Embeds `ContentManager.approve_content`:
`db.update_status(content_id, ContentStatus.APPROVED)` with no check of
the current status (and `error_message` defaulted to NULL). -/
def ContentManager.approve_content (m : ContentManager) (content_id now : Nat) :
    ContentManager × Bool :=
  let r := m.db.update_status content_id ContentStatus.approved none now
  ({ m with db := r.1 }, r.2)

/-- Embeds `ContentManager.reject_content`: status `rejected`, storing the
reason as `error_message`. -/
def ContentManager.reject_content (m : ContentManager) (content_id : Nat)
    (reason : String) (now : Nat) : ContentManager × Bool :=
  let r := m.db.update_status content_id ContentStatus.rejected (some reason) now
  ({ m with db := r.1 }, r.2)

/-- Embeds `ContentManager.mark_published`: status `published`
(`update_status` supplies the timestamp, `error_message` NULL). -/
def ContentManager.mark_published (m : ContentManager) (content_id now : Nat) :
    ContentManager × Bool :=
  let r := m.db.update_status content_id ContentStatus.published none now
  ({ m with db := r.1 }, r.2)

/-- Embeds `ContentManager.mark_failed`: status `failed`, storing the
error text. -/
def ContentManager.mark_failed (m : ContentManager) (content_id : Nat)
    (error : String) (now : Nat) : ContentManager × Bool :=
  let r := m.db.update_status content_id ContentStatus.failed (some error) now
  ({ m with db := r.1 }, r.2)

/-- Embeds `ContentManager.retry_failed_content`: returns `False` unless
the row exists and its status is `failed`; otherwise
`db.update_status(content_id, ContentStatus.APPROVED)` (which also
rewrites `published_at` and `error_message` to NULL). -/
def ContentManager.retry_failed_content (m : ContentManager) (content_id now : Nat) :
    ContentManager × Bool :=
  match m.get_content content_id with
  | none => (m, false)
  | some c =>
    if c.status ≠ ContentStatus.failed then (m, false)
    else
      let r := m.db.update_status content_id ContentStatus.approved none now
      ({ m with db := r.1 }, r.2)

/-- Embeds `ContentManager.delete_content`: fetch the row first, delete,
and on success discard its hash from the cache. -/
def ContentManager.delete_content (m : ContentManager) (content_id : Nat) :
    ContentManager × Bool :=
  let content := m.db.get_content content_id
  let r := m.db.delete_content content_id
  if r.2 then
    match content with
    | some c =>
      ({ db := r.1,
         content_hashes := m.content_hashes.erase (generate_content_hash c.title c.body) },
       true)
    | none => ({ m with db := r.1 }, true)
  else ({ m with db := r.1 }, false)

/-- Embeds `ContentManager.bulk_approve`: approve each id in order,
counting the successes. -/
def ContentManager.bulk_approve (m : ContentManager) (ids : List Nat) (now : Nat) :
    ContentManager × Nat :=
  ids.foldl
    (fun acc cid =>
      let r := acc.1.approve_content cid now
      (r.1, acc.2 + if r.2 then 1 else 0))
    (m, 0)

/-! ## `src/publisher/publisher.py`

The Selenium-driven steps become an oracle `PubOracle` recording the
boolean outcome each UI helper would report.  Each mode state machine
returns its overall success together with an execution trace: the list of
steps actually run, in order, paired with the result each reported. -/

/-- Outcomes of the publisher's UI-automation helpers for one attempt. -/
structure PubOracle where
  nav_upload : Bool
  nav_compose : Bool
  nav_long : Bool
  upload_images : Bool
  fill_title : Bool
  fill_description : Bool
  click_add_slide : Nat → Bool
  fill_slide : Nat → Bool
  fill_long_content : Bool
  auto_format : Bool
  submit_post : Bool

/-- A named step of a mode state machine. -/
inductive PubStep
  | navigate
  | uploadImages
  | fillTitle
  | fillDescription
  | addSlide (i : Nat)
  | fillSlide (i : Nat)
  | fillLongContent
  | autoFormat
  | submitPost
deriving DecidableEq, Repr

/-- Execution trace of one publish attempt: the steps run, in order, each
with the boolean result it returned. -/
abbrev PubTrace := List (PubStep × Bool)

/-- Embeds `XHSPublisher._publish_image_text_upload`: navigate → upload
images (only when the content has images) → fill title → fill
description → submit, each failure returning `False` at once. -/
def publish_image_text_upload (o : PubOracle) (content : Content) : Bool × PubTrace :=
  let t0 : PubTrace := [(PubStep.navigate, o.nav_upload)]
  if !o.nav_upload then (false, t0)
  else
    let t1 := t0 ++
      (if content.images.isEmpty then [] else [(PubStep.uploadImages, o.upload_images)])
    if !content.images.isEmpty && !o.upload_images then (false, t1)
    else
      let t2 := t1 ++ [(PubStep.fillTitle, o.fill_title)]
      if !o.fill_title then (false, t2)
      else
        let t3 := t2 ++ [(PubStep.fillDescription, o.fill_description)]
        if !o.fill_description then (false, t3)
        else (o.submit_post, t3 ++ [(PubStep.submitPost, o.submit_post)])

/-- Embeds the paragraph split of `_publish_image_text_compose`:
`[p.strip() for p in content.body.split("\n") if p.strip()]`, falling
back to the whole body when no paragraph survives. -/
def composeParagraphs (body : String) : List String :=
  let ps := ((splitOnChar '\n' body.data).map fun cs => pyStrip ⟨cs⟩).filter fun p => p ≠ ""
  if ps.isEmpty then [body] else ps

/-- The per-slide portion of the compose-mode trace: for each paragraph
index, an `addSlide` click for every slide beyond the first and the
slide's text fill — both logged-and-continued on failure, never
aborting. -/
def composeSlidesTrace (o : PubOracle) (n : Nat) : PubTrace :=
  (List.range n).flatMap fun i =>
    (if 0 < i then [(PubStep.addSlide i, o.click_add_slide i)] else []) ++
      [(PubStep.fillSlide i, o.fill_slide i)]

/-- Embeds `XHSPublisher._publish_image_text_compose`: navigate → one
slide per paragraph (slide failures only logged) → fill title → submit. -/
def publish_image_text_compose (o : PubOracle) (content : Content) : Bool × PubTrace :=
  let paragraphs := composeParagraphs content.body
  let t0 : PubTrace := [(PubStep.navigate, o.nav_compose)]
  if !o.nav_compose then (false, t0)
  else
    let t1 := t0 ++ composeSlidesTrace o paragraphs.length
    let t2 := t1 ++ [(PubStep.fillTitle, o.fill_title)]
    if !o.fill_title then (false, t2)
    else (o.submit_post, t2 ++ [(PubStep.submitPost, o.submit_post)])

/-- Embeds `XHSPublisher._publish_long_article`: navigate → fill title →
fill rich-text body → insert images (only when present; failure only
logged) → auto-format (result discarded) → submit. -/
def publish_long_article (o : PubOracle) (content : Content) : Bool × PubTrace :=
  let t0 : PubTrace := [(PubStep.navigate, o.nav_long)]
  if !o.nav_long then (false, t0)
  else
    let t1 := t0 ++ [(PubStep.fillTitle, o.fill_title)]
    if !o.fill_title then (false, t1)
    else
      let t2 := t1 ++ [(PubStep.fillLongContent, o.fill_long_content)]
      if !o.fill_long_content then (false, t2)
      else
        let t3 := t2 ++
          (if content.images.isEmpty then [] else [(PubStep.uploadImages, o.upload_images)])
        let t4 := t3 ++ [(PubStep.autoFormat, o.auto_format)]
        (o.submit_post, t4 ++ [(PubStep.submitPost, o.submit_post)])

/-- Embeds `XHSPublisher.publish`: route on the content's mode. -/
def publish (o : PubOracle) (content : Content) : Bool × PubTrace :=
  match content.publish_mode with
  | PublishMode.image_text_upload => publish_image_text_upload o content
  | PublishMode.image_text_compose => publish_image_text_compose o content
  | PublishMode.long_article => publish_long_article o content

/-- Loop of `publish_with_retry`: `pub k` is the result the `k`-th
invocation (0-based) of `self.publish(content)` would report; `calls`
counts invocations made so far.  Returns the overall result and the total
number of invocations. -/
def publish_with_retry_go (pub : Nat → Bool) : Nat → Nat → Bool × Nat
  | 0, calls => (false, calls)
  | n + 1, calls =>
    if pub calls then (true, calls + 1)
    else publish_with_retry_go pub n (calls + 1)

/-- Embeds `XHSPublisher.publish_with_retry`:
`for attempt in range(1, max_attempts + 1)`, returning `True` on the
first successful `publish` and `False` once the attempts are exhausted
(the inter-attempt countdown sleep has no semantic effect). -/
def publish_with_retry (pub : Nat → Bool) (max_attempts : Nat) : Bool × Nat :=
  publish_with_retry_go pub max_attempts 0

/-! ## `src/auth/xhs_auth.py`

The browser world is an oracle of the observations the auth manager makes.
`login` begins with `_ensure_driver`, which recreates a dead driver, so
the model takes the driver as alive throughout one `login` call. -/

/-- Observable outcomes for one `XHSAuthManager.login` call. -/
structure AuthWorld where
  /-- The cookies file exists on disk. -/
  session_file_exists : Bool
  /-- The saved credential records; `true` means `driver.add_cookie`
  accepts the record, `false` that it raises and is skipped. -/
  cookies : List Bool
  /-- After navigating to the creator URL, `"login"` occurs in the
  lowercased current URL. -/
  url_has_login_marker : Bool
  /-- The bounded wait for a user/avatar/profile/account element finds
  one. -/
  user_element_found : Bool
  /-- Outcome of the fresh login flow (`login_sms` / `login_qr`). -/
  fresh_login_ok : Bool

/-- Embeds `XHSAuthManager._load_session`: requires the cookies file, a
non-empty record list, and at least one record applied
(`loaded_count > 0`); records that fail to apply are skipped. -/
def load_session (w : AuthWorld) : Bool :=
  w.session_file_exists && !w.cookies.isEmpty && w.cookies.any id

/-- Embeds `XHSAuthManager.is_logged_in(force_check=True)`: navigate to
the creator URL, then logged in iff the URL lacks the login marker or a
user-identity element appears within the bounded wait. -/
def is_logged_in_force (w : AuthWorld) : Bool :=
  !w.url_has_login_marker || w.user_element_found

/-- Embeds `XHSAuthManager.login`: try `_load_session` first; when it
reports success, short-circuit only if `is_logged_in(force_check=True)`
confirms; otherwise fall through to the fresh login flow.  Returns
`(result, short_circuited)` where the flag records whether the call
returned through the saved-session path. -/
def login (w : AuthWorld) : Bool × Bool :=
  if load_session w then
    if is_logged_in_force w then (true, true)
    else (w.fresh_login_ok, false)
  else (w.fresh_login_ok, false)

/-! ## `src/generator/workflow.py`

The six-step orchestrator.  External collaborators (BannaFlow, the auth
manager, the publisher) are an oracle of their observable outcomes; the
step list holds one `WStatus` per pipeline slot, and the run records a
trace of which step functions actually executed. -/

/-- The `WorkflowStatus` enum. -/
inductive WStatus
  | pending
  | in_progress
  | completed
  | failed
  | skipped
deriving DecidableEq, Repr

/-- Identifier of a step function of `ContentWorkflow`. -/
inductive StepId
  | initStep
  | generate
  | importContent
  | approve
  | login
  | publishContent
deriving DecidableEq, Repr

/-- External outcomes for one workflow run. -/
structure WOracle where
  /-- Whether `_step_initialize` constructs its collaborators without raising. -/
  init_ok : Bool
  /-- The item BannaFlow yields (interactive wait or backlog import):
  `(title, body, images)` after `create_content_from_bannaflow`. -/
  generated : Option (String × String × List String)
  /-- The user's final y/n answer in the manual review loop. -/
  user_approves : Bool
  /-- Whether `auth_manager.login()` succeeds. -/
  login_ok : Bool
  /-- Whether `auth_manager.get_driver()` returns a live driver afterwards. -/
  driver_ok : Bool
  /-- Per-invocation outcomes of `publisher.publish(content)`. -/
  pub : Nat → Bool
  /-- The value of `config.publishing.retry_attempts`. -/
  retry_attempts : Nat

/-- The orchestrator's mutable state: statuses of the six steps (index 0
= Initialize … index 5 = Publish), the `current_step` cursor, the
imported content id, the content manager, whether a publisher was
constructed after login, and the trace of executed step functions. -/
structure WorkflowState where
  steps : List WStatus
  current_step : Nat
  content_id : Option Nat
  manager : ContentManager
  publisher_ready : Bool
  trace : List StepId

/-- Embeds `_init_steps`: six pending steps, cursor 0. -/
def WorkflowState.init (m : ContentManager) : WorkflowState :=
  { steps := [WStatus.pending, WStatus.pending, WStatus.pending,
              WStatus.pending, WStatus.pending, WStatus.pending]
    current_step := 0
    content_id := none
    manager := m
    publisher_ready := false
    trace := [] }

/-- Embeds `_update_step`: write the status of `steps[current_step]`,
guarded by `current_step < len(self.steps)` (out-of-range writes are
dropped, which is also the behaviour of `List.set`). -/
def updateStep (s : WorkflowState) (st : WStatus) : WorkflowState :=
  { s with steps := s.steps.set s.current_step st }

/-- Embeds `_next_step`. -/
def next_step (s : WorkflowState) : WorkflowState :=
  { s with current_step := s.current_step + 1 }

/-- Record entry into a step function: the trace notes the execution and
the current slot becomes `in_progress`. -/
def enterStep (s : WorkflowState) (id : StepId) : WorkflowState :=
  updateStep { s with trace := s.trace ++ [id] } WStatus.in_progress

/-- Embeds `_step_initialize`: construct collaborators, `completed` on
success and `failed` on an exception. -/
def step_init (o : WOracle) (s : WorkflowState) : WorkflowState × Bool :=
  let s := enterStep s StepId.initStep
  if o.init_ok then (updateStep s WStatus.completed, true)
  else (updateStep s WStatus.failed, false)

/-- Embeds `_step_generate_content` (both the interactive wait and the
non-interactive backlog import yield `o.generated`): `failed` when no
item was produced. -/
def step_generate_content (o : WOracle) (s : WorkflowState) : WorkflowState × Bool :=
  let s := enterStep s StepId.generate
  match o.generated with
  | some _ => (updateStep s WStatus.completed, true)
  | none => (updateStep s WStatus.failed, false)

/-- Embeds `_step_import_content`: convert the generated item and create
it in the database with source `fetched`, recording the new id. -/
def step_import_content (o : WOracle) (publish_mode : PublishMode) (now : Nat)
    (s : WorkflowState) : WorkflowState × Bool :=
  let s := enterStep s StepId.importContent
  match o.generated with
  | none => (updateStep s WStatus.failed, false)
  | some g =>
    let r := s.manager.create_content g.1 g.2.1 g.2.2
      ContentSource.fetched publish_mode now
    (updateStep { s with manager := r.1, content_id := some r.2 } WStatus.completed, true)

/-- Embeds `_step_approve_content`: auto-approve approves at once;
otherwise the review loop ends with approval (`completed`, `True`) or
rejection (`reject_content` with reason "Rejected by user", `skipped`,
`False`). -/
def step_approve_content (o : WOracle) (auto_approve : Bool) (now : Nat)
    (s : WorkflowState) : WorkflowState × Bool :=
  let s := enterStep s StepId.approve
  match s.content_id with
  | none => (updateStep s WStatus.failed, false)
  | some cid =>
    if auto_approve || o.user_approves then
      let r := s.manager.approve_content cid now
      (updateStep { s with manager := r.1 } WStatus.completed, true)
    else
      let r := s.manager.reject_content cid "Rejected by user" now
      (updateStep { s with manager := r.1 } WStatus.skipped, false)

/-- Embeds `_step_login_xhs`: `auth_manager.login()`, then a publisher is
built from the driver; `failed` when login fails or no driver is
available. -/
def step_login_xhs (o : WOracle) (s : WorkflowState) : WorkflowState × Bool :=
  let s := enterStep s StepId.login
  if o.login_ok then
    if o.driver_ok then
      (updateStep { s with publisher_ready := true } WStatus.completed, true)
    else (updateStep s WStatus.failed, false)
  else (updateStep s WStatus.failed, false)

/-- Embeds `_step_publish`: require a publisher and a content id, fetch
the row, require status `approved`, then `publish_with_retry`; on success
`mark_published`, otherwise `mark_failed` with
"Publishing failed after retries". -/
def step_publish (o : WOracle) (now : Nat) (s : WorkflowState) : WorkflowState × Bool :=
  let s := enterStep s StepId.publishContent
  if !s.publisher_ready then (updateStep s WStatus.failed, false)
  else
    match s.content_id with
    | none => (updateStep s WStatus.failed, false)
    | some cid =>
      match s.manager.get_content cid with
      | none => (updateStep s WStatus.failed, false)
      | some c =>
        if c.status ≠ ContentStatus.approved then (updateStep s WStatus.failed, false)
        else
          let r := publish_with_retry o.pub o.retry_attempts
          if r.1 then
            let u := s.manager.mark_published cid now
            (updateStep { s with manager := u.1 } WStatus.completed, true)
          else
            let u := s.manager.mark_failed cid "Publishing failed after retries" now
            (updateStep { s with manager := u.1 } WStatus.failed, false)

/-- Embeds `ContentWorkflow.run_interactive`.  Faithful to the source's
cursor arithmetic: after the first step the code runs
`self._next_step() if self._step_initialize() else None`, and each later
block calls `_next_step()` **before** its step function, so from the
second step on the cursor sits one slot ahead of the semantic step (the
publish step even writes beyond the list, where updates are dropped). -/
def run_interactive (o : WOracle) (m : ContentManager) (publish_mode : PublishMode)
    (auto_approve : Bool) (now : Nat) : WorkflowState × Bool :=
  let s := WorkflowState.init m
  let r1 := step_init o s
  let s := if r1.2 then next_step r1.1 else r1.1
  if s.steps.getD 0 WStatus.pending ≠ WStatus.completed then (s, false)
  else
    let r2 := step_generate_content o (next_step s)
    if !r2.2 then (r2.1, false)
    else
      let r3 := step_import_content o publish_mode now (next_step r2.1)
      if !r3.2 then (r3.1, false)
      else
        let r4 := step_approve_content o auto_approve now (next_step r3.1)
        if !r4.2 then (r4.1, false)
        else
          let r5 := step_login_xhs o (next_step r4.1)
          if !r5.2 then (r5.1, false)
          else step_publish o now (next_step r5.1)

/-- Embeds `ContentWorkflow.run_import_and_publish`: same pipeline with
`_next_step()` correctly placed **after** each step. -/
def run_import_and_publish (o : WOracle) (m : ContentManager) (publish_mode : PublishMode)
    (auto_approve : Bool) (now : Nat) : WorkflowState × Bool :=
  let s := WorkflowState.init m
  let r1 := step_init o s
  if !r1.2 then (r1.1, false)
  else
    let r2 := step_generate_content o (next_step r1.1)
    if !r2.2 then (r2.1, false)
    else
      let r3 := step_import_content o publish_mode now (next_step r2.1)
      if !r3.2 then (r3.1, false)
      else
        let r4 := step_approve_content o auto_approve now (next_step r3.1)
        if !r4.2 then (r4.1, false)
        else
          let r5 := step_login_xhs o (next_step r4.1)
          if !r5.2 then (r5.1, false)
          else step_publish o now (next_step r5.1)

/-! ## Claim-level definitions

Spec-side predicates (named `spec_...` / `..._claim_statement`, written
from the specification's words for comparison with the code embedding),
and concrete states used by counterexamples and witnesses. -/

/-- From the spec's words (C2): a single field "matches a spam pattern (a
character repeated at least 10 times consecutively, or a raw control
character)". -/
def spec_field_spam (s : String) : Bool :=
  hasRunGe 10 s.data || hasControlChar s.data

/-- C2 as stated: `validate` rejects exactly when the title is empty, the
title exceeds 100 characters, the body is empty, the body exceeds 10000
characters, or **either field individually** matches a spam pattern. -/
def C2_claim_statement : Prop :=
  ∀ (title body : String),
    (validate_content title body).1 = false ↔
      (title = "" ∨ title.length > 100 ∨ body = "" ∨ body.length > 10000 ∨
       spec_field_spam title = true ∨ spec_field_spam body = true)

/-- C1 as stated: `approve(id)` succeeds only when the current status is
pending, and returns false changing nothing for an absent id. -/
def C1_claim_statement : Prop :=
  ∀ (m : ContentManager) (cid now : Nat),
    (∀ c, m.get_content cid = some c →
      ((m.approve_content cid now).2 = true ↔ c.status = ContentStatus.pending)) ∧
    (m.get_content cid = none →
      (m.approve_content cid now).2 = false ∧ (m.approve_content cid now).1 = m)

/-- C5 as stated: for failed content with a stored error message,
`retryFailed` succeeds and the message is still stored afterwards. -/
def C5_claim_statement : Prop :=
  ∀ (m : ContentManager) (cid now : Nat) (c : Content) (e : String),
    m.get_content cid = some c → c.status = ContentStatus.failed →
    c.error_message = some e →
      (m.retry_failed_content cid now).2 = true ∧
      ∃ c', (m.retry_failed_content cid now).1.get_content cid = some c' ∧
        c'.status = ContentStatus.approved ∧ c'.error_message = some e

/-- The manager states reachable from a fresh empty store through the
defined operations (C4's induction space). -/
inductive Reachable : ContentManager → Prop
  | empty : Reachable ContentManager.empty
  | create (m : ContentManager) (title body : String) (images : List String)
      (source : ContentSource) (mode : PublishMode) (now : Nat) :
      Reachable m → Reachable (m.create_content title body images source mode now).1
  | vcreate (m : ContentManager) (title body : String) (images : List String)
      (source : ContentSource) (mode : PublishMode) (check : Bool) (now : Nat) :
      Reachable m →
      Reachable (m.validate_and_create title body images source mode check now).1
  | approve (m : ContentManager) (cid now : Nat) :
      Reachable m → Reachable (m.approve_content cid now).1
  | reject (m : ContentManager) (cid : Nat) (reason : String) (now : Nat) :
      Reachable m → Reachable (m.reject_content cid reason now).1
  | markPublished (m : ContentManager) (cid now : Nat) :
      Reachable m → Reachable (m.mark_published cid now).1
  | markFailed (m : ContentManager) (cid : Nat) (error : String) (now : Nat) :
      Reachable m → Reachable (m.mark_failed cid error now).1
  | retryFailed (m : ContentManager) (cid now : Nat) :
      Reachable m → Reachable (m.retry_failed_content cid now).1
  | delete (m : ContentManager) (cid : Nat) :
      Reachable m → Reachable (m.delete_content cid).1

/-- C4's invariant over a database. -/
def published_iff_invariant (db : Database) : Prop :=
  ∀ c ∈ db.rows, (c.published_at.isSome = true ↔ c.status = ContentStatus.published)

/-- A manager holding one freshly created (pending) row with id 1. -/
def demo_manager_pending : ContentManager :=
  (ContentManager.empty.create_content "Title" "Body text" []
    ContentSource.manual PublishMode.image_text_upload 0).1

/-- State of `demo_manager_pending` after `approve_content 1`. -/
def demo_manager_approved : ContentManager :=
  (demo_manager_pending.approve_content 1 1).1

/-- State of `demo_manager_approved` after `mark_published 1`. -/
def demo_manager_published : ContentManager :=
  (demo_manager_approved.mark_published 1 2).1

/-- State of `demo_manager_pending` after `mark_failed 1 "boom"`. -/
def demo_manager_failed : ContentManager :=
  (demo_manager_pending.mark_failed 1 "boom" 1).1

/-- The row of `demo_manager_approved`. -/
def demo_row_approved : Content :=
  { id := 1, title := "Title", body := "Body text", images := []
    source := ContentSource.manual, status := ContentStatus.approved
    publish_mode := PublishMode.image_text_upload, created_at := 0
    published_at := none, error_message := none }

/-- The row of `demo_manager_failed`. -/
def demo_row_failed : Content :=
  { demo_row_approved with status := ContentStatus.failed, error_message := some "boom" }

/-- The row after retrying `demo_manager_failed`: approved, with the
error message wiped. -/
def demo_row_retried : Content :=
  { demo_row_approved with status := ContentStatus.approved, error_message := none }

/-- C6's stub: `publish` fails on invocations 0 and 1 (calls 1–2) and
succeeds from invocation 2 (call 3) on. -/
def c6_stub (k : Nat) : Bool := decide (2 ≤ k)

/-- C6's end-to-end oracle: everything before publishing succeeds,
publishing uses `c6_stub` with `retry_attempts = 2`. -/
def c6_oracle : WOracle :=
  { init_ok := true
    generated := some ("Title", "Body text", [])
    user_approves := true
    login_ok := true
    driver_ok := true
    pub := c6_stub
    retry_attempts := 2 }

/-- The row left by C6's exhausted-retries run: failed, with the
non-empty error message written by `_step_publish`. -/
def c6_failed_row : Content :=
  { demo_row_approved with
    source := ContentSource.fetched
    status := ContentStatus.failed
    error_message := some "Publishing failed after retries" }

/-- C9's predicate, from the claim's words: in an attempt trace, only the
final executed step may have returned failure (every failure aborts the
remaining steps). -/
def haltsOnFailure (tr : PubTrace) : Bool :=
  tr.dropLast.all fun sb => sb.2

/-- C9 as stated: all three mode state machines abort the attempt at the
first failed step. -/
def C9_claim_statement : Prop :=
  ∀ (o : PubOracle) (c : Content), haltsOnFailure (publish o c).2 = true

/-- Compose/long-article steps the code treats as best-effort: slide
adds and slide fills. -/
def composeNonFatal : PubStep → Bool
  | PubStep.addSlide _ => true
  | PubStep.fillSlide _ => true
  | _ => false

/-- Long-article steps the code treats as best-effort: image insertion
and auto-format. -/
def longNonFatal : PubStep → Bool
  | PubStep.uploadImages => true
  | PubStep.autoFormat => true
  | _ => false

/-- C9's counterexample oracle: every step succeeds except the slide
text fill. -/
def c9_oracle : PubOracle :=
  { nav_upload := true, nav_compose := true, nav_long := true
    upload_images := true, fill_title := true, fill_description := true
    click_add_slide := fun _ => true, fill_slide := fun _ => false
    fill_long_content := true, auto_format := true, submit_post := true }

/-- C9's counterexample content: compose mode, single-paragraph body. -/
def c9_content : Content :=
  { id := 1, title := "Title", body := "hello", images := []
    source := ContentSource.manual, status := ContentStatus.approved
    publish_mode := PublishMode.image_text_compose, created_at := 0
    published_at := none, error_message := none }

/-- C8's witness world: the cookies file exists and 3 of its 5 records
apply, but the post-navigation heuristic denies the logged-in state (the
URL still shows the login marker and no user element appears), and the
fresh login also fails. -/
def c8_world : AuthWorld :=
  { session_file_exists := true
    cookies := [true, true, true, false, false]
    url_has_login_marker := true
    user_element_found := false
    fresh_login_ok := false }

/-! ## Shared lemmas -/

set_option maxRecDepth 100000

/-- Mapping an id-preserving per-row update over the rows commutes with
looking a row up by id. -/
theorem find_map_update (rows : List Content) (cid : Nat) (f : Content → Content)
    (hf : ∀ c, (f c).id = c.id) :
    ((rows.map fun c => if c.id == cid then f c else c).find? fun c => c.id == cid) =
      (rows.find? fun c => c.id == cid).map f := by
  induction rows with
  | nil => rfl
  | cons a l ih =>
    cases hb : (a.id == cid) with
    | true =>
      have hfb : ((f a).id == cid) = true := by rw [hf]; exact hb
      simp only [List.map_cons]
      rw [if_pos hb, List.find?_cons_of_pos (p := fun c : Content => c.id == cid) _ hfb,
        List.find?_cons_of_pos (p := fun c : Content => c.id == cid) _ hb]
      rfl
    | false =>
      simp only [List.map_cons, hb, if_false, Bool.false_eq_true]
      rw [List.find?_cons_of_neg _ (by simp [hb]), List.find?_cons_of_neg _ (by simp [hb]), ih]

/-- Reading back a row after `update_status`: the looked-up row is the
stored one with status, `published_at` and `error_message` rewritten. -/
theorem get_content_update_status (db : Database) (cid : Nat) (st : ContentStatus)
    (err : Option String) (now : Nat) :
    (db.update_status cid st err now).1.get_content cid =
      (db.get_content cid).map fun c =>
        { c with status := st,
                 published_at := if st = ContentStatus.published then some now else none,
                 error_message := err } := by
  simp only [Database.update_status, Database.get_content]
  exact find_map_update db.rows cid _ fun c => rfl

/-- An `update_status` on an id that is not present changes nothing. -/
theorem update_status_of_absent (db : Database) (cid : Nat) (st : ContentStatus)
    (err : Option String) (now : Nat) (h : ∀ c ∈ db.rows, ¬c.id = cid) :
    (db.update_status cid st err now).1 = db := by
  simp only [Database.update_status]
  have : (db.rows.map fun c =>
      if c.id == cid then
        { c with status := st,
                 published_at := if st = ContentStatus.published then some now else none,
                 error_message := err }
      else c) = db.rows := by
    rw [List.map_congr_left (g := id) fun a ha => by simp [h a ha], List.map_id]
  rw [this]

/-- The success flag of `update_status` is row existence. -/
theorem update_status_changed_iff (db : Database) (cid : Nat) (st : ContentStatus)
    (err : Option String) (now : Nat) :
    ((db.update_status cid st err now).2 = true ↔ ∃ c ∈ db.rows, c.id = cid) := by
  simp only [Database.update_status]
  rw [List.any_eq_true]
  constructor
  · rintro ⟨c, hc, hid⟩; exact ⟨c, hc, by simpa using hid⟩
  · rintro ⟨c, hc, hid⟩; exact ⟨c, hc, by simpa using hid⟩

/-! ## C1 -/

/-- C1, counterexample: on a row whose status is already `approved`,
`approve` succeeds again — the code's `update_status` has no
current-status guard, so "succeeds only when pending" is false. -/
theorem C1_counterexample : ¬ C1_claim_statement := by
  intro h
  have h1 := ((h demo_manager_approved 1 2).1 demo_row_approved (by decide)).mp (by decide)
  exact absurd h1 (by decide)

/-- C1, amended: `approve(id)` returns true iff a row with that id
exists, regardless of its current status; on that row it sets status
`approved` (clearing `published_at` and `error_message`); for an absent
id it returns false and changes nothing. -/
theorem C1_amended_approve (m : ContentManager) (cid now : Nat) :
    ((m.approve_content cid now).2 = true ↔ ∃ c ∈ m.db.rows, c.id = cid) ∧
    (m.get_content cid = none → (m.approve_content cid now).1 = m) ∧
    (∀ c ∈ (m.approve_content cid now).1.db.rows, c.id = cid →
      c.status = ContentStatus.approved ∧ c.published_at = none ∧
      c.error_message = none) := by
  refine ⟨?_, ?_, ?_⟩
  · simpa only [ContentManager.approve_content] using
      update_status_changed_iff m.db cid ContentStatus.approved none now
  · intro h
    have habs : ∀ c ∈ m.db.rows, ¬c.id = cid := by
      intro c hc
      have := List.find?_eq_none.mp h c hc
      simpa using this
    simp only [ContentManager.approve_content,
      update_status_of_absent m.db cid ContentStatus.approved none now habs]
  · intro c hc hid
    simp only [ContentManager.approve_content, Database.update_status] at hc
    obtain ⟨a, ha, rfl⟩ := List.mem_map.mp hc
    cases hab : (a.id == cid) with
    | true => simp [hab]
    | false =>
      rw [hab] at hid
      simp at hid
      exact absurd (by simpa using hid) (by simpa using hab)

/-- C1, witness: applying the amended theorem at the one-row approved
store — `approve` succeeds there, and an absent id leaves the store
untouched. -/
theorem C1_witness :
    (demo_manager_approved.approve_content 1 2).2 = true ∧
    (demo_manager_approved.approve_content 99 2).1 = demo_manager_approved :=
  ⟨(C1_amended_approve demo_manager_approved 1 2).1.mpr
      ⟨demo_row_approved, by decide, by decide⟩,
   (C1_amended_approve demo_manager_approved 99 2).2.1 (by decide)⟩

/-! ## C2 -/

/-- C2, counterexample: with title `"aaaaaa"` and body `"aaaaa"`, no
single field matches a spam pattern (and none of the other conditions in
the claim holds), yet the code rejects — it applies the spam scan to the
concatenation `title + body`, where the run of eleven `a`s appears. -/
theorem C2_counterexample : ¬ C2_claim_statement := fun h =>
  absurd ((h "aaaaaa" "aaaaa").mp (by decide)) (by decide)

/-- C2, amended: `validate` is pure, and it rejects exactly when the
title is empty or whitespace-only, the title exceeds 100 characters, the
body is empty or whitespace-only, the body exceeds 10000 characters, or
the **concatenation** title + body contains a character repeated at least
11 times consecutively or a raw control character. -/
theorem C2_amended_validate (title body : String) :
    (validate_content title body).1 = false ↔
      (title.data.all pyIsSpace = true ∨ title.length > 100 ∨
       body.data.all pyIsSpace = true ∨ body.length > 10000 ∨
       hasRunGe 11 (title ++ body).data = true ∨
       hasControlChar (title ++ body).data = true) := by
  unfold validate_content
  split_ifs with h1 h2 h3 h4 h5 h6 <;> simp_all [hasLongRun]

/-! ## C3 -/

/-- After a `validate_and_create` whose input passes validation (and has
no images), the content hash of that input is in the cache — whether the
call stored the content or rejected it as a duplicate. -/
theorem contains_hash_after_vcreate (m : ContentManager) (title body : String)
    (source : ContentSource) (mode : PublishMode) (now : Nat)
    (hv : (validate_content title body).1 = true) :
    generate_content_hash title body ∈
      (m.validate_and_create title body [] source mode true now).1.content_hashes := by
  simp only [ContentManager.validate_and_create, hv, Bool.not_true, if_false,
    List.find?_nil, Bool.true_and]
  by_cases hc : generate_content_hash title body ∈ m.content_hashes
  · simp [hc]
  · simp [hc, ContentManager.create_content]

/-- C3: for any validated `(title, body)` pair, a second identical
`validate_and_create` with duplicate checking enabled fails with exactly
"Duplicate content detected" and leaves the manager (hence the store and
its row count) unchanged. -/
theorem C3_duplicate_second_call (m : ContentManager) (title body : String)
    (source : ContentSource) (mode : PublishMode) (now1 now2 : Nat)
    (hv : (validate_content title body).1 = true) :
    (m.validate_and_create title body [] source mode true now1).1.validate_and_create
        title body [] source mode true now2 =
      ((m.validate_and_create title body [] source mode true now1).1, none,
        "Duplicate content detected") := by
  have hc := contains_hash_after_vcreate m title body source mode now1 hv
  set m1 := (m.validate_and_create title body [] source mode true now1).1 with hm1
  simp [ContentManager.validate_and_create, hv, hc]

/-- C3, witness: the second creation of `("Hello", "World")` from an
empty store is rejected as a duplicate without changing the store. -/
theorem C3_witness :
    (validate_content "Hello" "World").1 = true ∧
    (ContentManager.empty.validate_and_create "Hello" "World" [] ContentSource.manual
        PublishMode.image_text_upload true 0).1.validate_and_create "Hello" "World" []
        ContentSource.manual PublishMode.image_text_upload true 1 =
      ((ContentManager.empty.validate_and_create "Hello" "World" [] ContentSource.manual
          PublishMode.image_text_upload true 0).1, none, "Duplicate content detected") :=
  ⟨by decide, C3_duplicate_second_call ContentManager.empty "Hello" "World"
    ContentSource.manual PublishMode.image_text_upload 0 1 (by decide)⟩

/-! ## C4 -/

/-- The operation `update_status` preserves the published-at invariant: it writes a
timestamp exactly when it writes status `published`. -/
theorem published_inv_update (db : Database) (cid : Nat) (st : ContentStatus)
    (err : Option String) (now : Nat) (h : published_iff_invariant db) :
    published_iff_invariant (db.update_status cid st err now).1 := by
  intro c hc
  simp only [Database.update_status] at hc
  obtain ⟨a, ha, rfl⟩ := List.mem_map.mp hc
  by_cases hab : (a.id == cid) = true
  · rw [if_pos hab]
    by_cases hst : st = ContentStatus.published
    · simp [hst]
    · simp [hst]
  · rw [if_neg hab]
    exact h a ha

/-- Inserting a row whose status is not `published` preserves the
invariant: the INSERT stores NULL `published_at`. -/
theorem published_inv_create (db : Database) (c : Content)
    (hst : ¬c.status = ContentStatus.published) (h : published_iff_invariant db) :
    published_iff_invariant (db.create_content c).1 := by
  intro x hx
  simp only [Database.create_content] at hx
  rcases List.mem_append.mp hx with hx | hx
  · exact h x hx
  · simp only [List.mem_singleton] at hx
    subst hx
    simpa using hst

/-- Deleting rows preserves the invariant. -/
theorem published_inv_delete (db : Database) (cid : Nat)
    (h : published_iff_invariant db) :
    published_iff_invariant (db.delete_content cid).1 := by
  intro x hx
  simp only [Database.delete_content] at hx
  exact h x (List.mem_of_mem_filter hx)

/-- C4: in every manager state reachable through the defined operations,
a row's `published_at` is set iff its status is `published`. -/
theorem C4_published_at_iff (m : ContentManager) (h : Reachable m) :
    published_iff_invariant m.db := by
  induction h with
  | empty => intro c hc; cases hc
  | create m title body images source mode now _ ih =>
    simp only [ContentManager.create_content]
    exact published_inv_create _ _ (by simp) ih
  | vcreate m title body images source mode check now _ ih =>
    simp only [ContentManager.validate_and_create]
    split
    · exact ih
    · split
      · exact ih
      · split
        · exact ih
        · simp only [ContentManager.create_content]
          exact published_inv_create _ _ (by simp) ih
  | approve m cid now _ ih =>
    simp only [ContentManager.approve_content]
    exact published_inv_update _ _ _ _ _ ih
  | reject m cid reason now _ ih =>
    simp only [ContentManager.reject_content]
    exact published_inv_update _ _ _ _ _ ih
  | markPublished m cid now _ ih =>
    simp only [ContentManager.mark_published]
    exact published_inv_update _ _ _ _ _ ih
  | markFailed m cid error now _ ih =>
    simp only [ContentManager.mark_failed]
    exact published_inv_update _ _ _ _ _ ih
  | retryFailed m cid now _ ih =>
    simp only [ContentManager.retry_failed_content]
    split
    · exact ih
    · split
      · exact ih
      · exact published_inv_update _ _ _ _ _ ih
  | delete m cid _ ih =>
    simp only [ContentManager.delete_content]
    split
    · split
      · exact published_inv_delete _ _ ih
      · exact published_inv_delete _ _ ih
    · exact published_inv_delete _ _ ih

/-- C4, witness: the invariant holds at the concrete reachable state
create → approve → markPublished (whose single row is published with a
timestamp set). -/
theorem C4_witness : published_iff_invariant demo_manager_published.db :=
  C4_published_at_iff demo_manager_published
    (Reachable.markPublished _ 1 2
      (Reachable.approve _ 1 1
        (Reachable.create _ "Title" "Body text" [] ContentSource.manual
          PublishMode.image_text_upload 0 Reachable.empty)))

/-! ## C5 -/

/-- C5, counterexample: a failed row with stored error "boom" is reset
by `retryFailed`, but the reset `update_status` writes NULL
`error_message`, erasing the stored message — the retained-history part
of the claim is false. -/
theorem C5_counterexample : ¬ C5_claim_statement := by
  intro h
  obtain ⟨-, c', hc', -, herr⟩ :=
    h demo_manager_failed 1 2 demo_row_failed "boom" (by decide) (by decide) (by decide)
  rw [show (demo_manager_failed.retry_failed_content 1 2).1.get_content 1 =
      some demo_row_retried from by decide] at hc'
  injection hc' with hh
  subst hh
  exact absurd herr (by decide)

/-- C5, amended: `retryFailed` succeeds exactly when the row exists with
status `failed` (false for any other status or an unknown id), resetting
it to `approved` — but the reset clears the stored error message (and
`published_at`). -/
theorem C5_amended_retry (m : ContentManager) (cid now : Nat) :
    ((m.retry_failed_content cid now).2 = true ↔
      ∃ c, m.get_content cid = some c ∧ c.status = ContentStatus.failed) ∧
    (∀ c, m.get_content cid = some c → c.status = ContentStatus.failed →
      (m.retry_failed_content cid now).1.get_content cid =
        some { c with status := ContentStatus.approved, published_at := none, error_message := none }) := by
  constructor
  · cases hm : m.get_content cid with
    | none => simp [ContentManager.retry_failed_content, hm]
    | some c =>
      by_cases hst : c.status = ContentStatus.failed
      · simp only [ContentManager.retry_failed_content, hm, hst, ne_eq, not_true_eq_false,
          if_false]
        rw [update_status_changed_iff]
        constructor
        · intro _
          exact ⟨c, rfl, hst⟩
        · intro _
          exact ⟨c, List.mem_of_find?_eq_some hm, by simpa using List.find?_some hm⟩
      · simp only [ContentManager.retry_failed_content, hm]
        simp [hst]
  · intro c hm hst
    simp only [ContentManager.retry_failed_content, hm, hst, ne_eq, not_true_eq_false,
      if_false]
    have := get_content_update_status m.db cid ContentStatus.approved none now
    simp only [ContentManager.get_content] at hm
    simp [ContentManager.get_content, this, hm]

/-- C5, witness: applying the amended theorem to the concrete failed row
— the retry succeeds and the row comes back approved with its error
message wiped. -/
theorem C5_witness :
    (demo_manager_failed.retry_failed_content 1 2).2 = true ∧
    (demo_manager_failed.retry_failed_content 1 2).1.get_content 1 =
      some { demo_row_failed with status := ContentStatus.approved, published_at := none, error_message := none } :=
  ⟨(C5_amended_retry demo_manager_failed 1 2).1.mpr ⟨demo_row_failed, by decide, by decide⟩,
   (C5_amended_retry demo_manager_failed 1 2).2 demo_row_failed (by decide) (by decide)⟩

/-! ## C6 -/

/-- The retry loop makes at most `n` further invocations. -/
theorem publish_with_retry_go_le (pub : Nat → Bool) :
    ∀ (n calls : Nat), (publish_with_retry_go pub n calls).2 ≤ calls + n := by
  intro n
  induction n with
  | zero => intro calls; simp [publish_with_retry_go]
  | succ k ih =>
    intro calls
    simp only [publish_with_retry_go]
    by_cases h : pub calls = true
    · rw [if_pos h]
      omega
    · rw [if_neg h]
      have := ih (calls + 1)
      omega

/-- C6: `publish_with_retry` invokes `publish` at most `max_attempts`
times and stops at the first success.  With the stub that fails on calls
1–2 and succeeds on call 3: `max_attempts = 3` returns true after
exactly 3 invocations, `max_attempts = 2` returns false after exactly 2,
and the workflow's publish step then leaves the content `failed` with
the non-empty error message "Publishing failed after retries".  (An
always-succeeding stub shows no further invocation follows a success.) -/
theorem C6_retry_behaviour :
    (∀ (pub : Nat → Bool) (max_attempts : Nat),
      (publish_with_retry pub max_attempts).2 ≤ max_attempts) ∧
    publish_with_retry c6_stub 3 = (true, 3) ∧
    publish_with_retry c6_stub 2 = (false, 2) ∧
    publish_with_retry (fun _ => true) 3 = (true, 1) ∧
    (run_import_and_publish c6_oracle ContentManager.empty
      PublishMode.image_text_upload true 0).2 = false ∧
    (run_import_and_publish c6_oracle ContentManager.empty
      PublishMode.image_text_upload true 0).1.manager.get_content 1 = some c6_failed_row ∧
    c6_failed_row.status = ContentStatus.failed ∧
    c6_failed_row.error_message = some "Publishing failed after retries" := by
  refine ⟨?_, by decide, by decide, by decide, by decide, by decide, by decide, by decide⟩
  intro pub max_attempts
  simpa using publish_with_retry_go_le pub max_attempts 0

/-! ## C7 -/

/-- C7: in both run modes, when the approval step ends in rejection (the
manual review answers no), the publish step function never executes and
the Login and Publish slots are still `pending` or `skipped` at run
end. -/
theorem C7_rejection_blocks_publish (o : WOracle) (m : ContentManager)
    (mode : PublishMode) (now : Nat) (hreject : o.user_approves = false) :
    (StepId.publishContent ∉ (run_interactive o m mode false now).1.trace ∧
      (run_interactive o m mode false now).1.steps.getD 4 WStatus.pending ∈
        [WStatus.pending, WStatus.skipped] ∧
      (run_interactive o m mode false now).1.steps.getD 5 WStatus.pending ∈
        [WStatus.pending, WStatus.skipped]) ∧
    (StepId.publishContent ∉ (run_import_and_publish o m mode false now).1.trace ∧
      (run_import_and_publish o m mode false now).1.steps.getD 4 WStatus.pending ∈
        [WStatus.pending, WStatus.skipped] ∧
      (run_import_and_publish o m mode false now).1.steps.getD 5 WStatus.pending ∈
        [WStatus.pending, WStatus.skipped]) := by
  obtain ⟨iok, gen, ua, lok, drv, pb, ra⟩ := o
  simp only at hreject
  subst hreject
  cases iok <;> rcases gen with _ | ⟨g⟩ <;>
    simp [run_interactive, run_import_and_publish, step_init, step_generate_content,
      step_import_content, step_approve_content, step_login_xhs, step_publish,
      WorkflowState.init, enterStep, updateStep, next_step, ContentManager.create_content,
      ContentManager.reject_content, List.getD]

/-- C7, witness: the concrete interactive run in which the user rejects
— the publish step is absent from the execution trace. -/
theorem C7_witness :
    StepId.publishContent ∉
      (run_interactive { c6_oracle with user_approves := false } ContentManager.empty
        PublishMode.image_text_upload false 0).1.trace :=
  ((C7_rejection_blocks_publish { c6_oracle with user_approves := false }
    ContentManager.empty PublishMode.image_text_upload 0 (by decide)).1).1

/-! ## C8 -/

/-- C8: `login` short-circuits through the saved session exactly when
`loadSession` reports success **and** the forced login check
(`is_logged_in(force_check=True)`'s URL/DOM heuristic) independently
confirms; a short-circuit always returns success; and a loaded session
the heuristic rejects falls through to the fresh login flow — partial
cookie application alone is never proof of login. -/
theorem C8_short_circuit_needs_confirmation (w : AuthWorld) :
    ((login w).2 = true ↔ (load_session w = true ∧ is_logged_in_force w = true)) ∧
    ((login w).2 = true → (login w).1 = true) ∧
    ((load_session w = true ∧ is_logged_in_force w = false) →
      login w = (w.fresh_login_ok, false)) := by
  unfold login
  by_cases h1 : load_session w = true
  · by_cases h2 : is_logged_in_force w = true
    · simp [h1, h2]
    · simp [h1, h2, Bool.not_eq_true _ ▸ h2]
  · simp [h1, Bool.not_eq_true _ ▸ h1]

/-- C8, witness: with a session file whose records apply partially (3 of
5) but a heuristic that denies login, `login` does not short-circuit and
falls through to the (failing) fresh flow. -/
theorem C8_witness :
    load_session c8_world = true ∧ login c8_world = (c8_world.fresh_login_ok, false) :=
  ⟨by decide,
   (C8_short_circuit_needs_confirmation c8_world).2.2 ⟨by decide, by decide⟩⟩

/-! ## C9 -/

/-- C9, counterexample: in compose mode a failed slide fill is only
logged — the attempt continues into the title fill and the submit, so
"any step returning failure aborts all remaining steps" is false. -/
theorem C9_counterexample : ¬ C9_claim_statement := fun h =>
  absurd (h c9_oracle c9_content) (by decide)

/-- Every entry of the compose slide sub-trace is a best-effort step. -/
theorem composeSlidesTrace_all_nonfatal (o : PubOracle) (n : Nat) :
    ((composeSlidesTrace o n).all fun sb => sb.2 || composeNonFatal sb.1) = true := by
  rw [List.all_eq_true]
  intro sb hsb
  rw [composeSlidesTrace, List.mem_flatMap] at hsb
  obtain ⟨i, hi, hmem⟩ := hsb
  rcases List.mem_append.mp hmem with hm | hm
  · split at hm
    · simp only [List.mem_singleton] at hm
      subst hm
      simp [composeNonFatal]
    · cases hm
  · simp only [List.mem_singleton] at hm
    subst hm
    simp [composeNonFatal]

/-- C9, amended: the upload-mode machine aborts at any failed step; the
compose-mode and long-article machines abort at any failed **critical**
step (navigate, title, article body, with submit last), while their
best-effort steps — compose's add-slide and slide-fill, long-article's
image insertion and auto-format — may fail without aborting the
attempt. -/
theorem C9_amended_abort_discipline :
    (∀ (o : PubOracle) (c : Content),
      haltsOnFailure (publish_image_text_upload o c).2 = true) ∧
    (∀ (o : PubOracle) (c : Content),
      ((publish_image_text_compose o c).2.dropLast.all
        fun sb => sb.2 || composeNonFatal sb.1) = true) ∧
    (∀ (o : PubOracle) (c : Content),
      ((publish_long_article o c).2.dropLast.all
        fun sb => sb.2 || longNonFatal sb.1) = true) := by
  refine ⟨?_, ?_, ?_⟩
  · intro o c
    rcases o with ⟨nu, nc, nl, ui, ft, fd, cas, fs, flc, af, sp⟩
    by_cases him : c.images.isEmpty <;>
      cases nu <;> cases ui <;> cases ft <;> cases fd <;>
        simp [publish_image_text_upload, haltsOnFailure, him]
  · intro o c
    have hslides := composeSlidesTrace_all_nonfatal o (composeParagraphs c.body).length
    cases hn : o.nav_compose with
    | false => simp [publish_image_text_compose, hn]
    | true =>
      cases ht : o.fill_title with
      | false =>
        have h2 : (publish_image_text_compose o c).2 =
            ([(PubStep.navigate, true)] ++
                composeSlidesTrace o (composeParagraphs c.body).length) ++
              [(PubStep.fillTitle, false)] := by
          simp [publish_image_text_compose, hn, ht]
        rw [h2, List.dropLast_concat, List.all_append]
        simp [hslides]
      | true =>
        have h2 : (publish_image_text_compose o c).2 =
            (([(PubStep.navigate, true)] ++
                composeSlidesTrace o (composeParagraphs c.body).length) ++
              [(PubStep.fillTitle, true)]) ++ [(PubStep.submitPost, o.submit_post)] := by
          simp [publish_image_text_compose, hn, ht]
        rw [h2, List.dropLast_concat, List.all_append, List.all_append]
        simp [hslides]
  · intro o c
    by_cases him : c.images.isEmpty <;>
      cases hn : o.nav_long <;> cases ht : o.fill_title <;> cases hf : o.fill_long_content <;>
        simp [publish_long_article, him, hn, ht, hf, longNonFatal]

/-! ## C10 -/

/-- C10: the content hash is a function of the single string
`title + ":" + body`, so distinct `(title, body)` pairs can collide —
`("a:b", "c")` and `("a", "b:c")` both hash `"a:b:c"` — and after
storing the first pair, `validate_and_create` rejects the never-stored
second pair as "Duplicate content detected". -/
theorem C10_hash_not_injective :
    generate_content_hash "a:b" "c" = generate_content_hash "a" "b:c" ∧
    (("a:b", "c") : String × String) ≠ ("a", "b:c") ∧
    (ContentManager.empty.validate_and_create "a:b" "c" [] ContentSource.manual
        PublishMode.image_text_upload true 0).1.validate_and_create "a" "b:c" []
        ContentSource.manual PublishMode.image_text_upload true 1 =
      ((ContentManager.empty.validate_and_create "a:b" "c" [] ContentSource.manual
          PublishMode.image_text_upload true 0).1, none, "Duplicate content detected") ∧
    (∀ c ∈ (ContentManager.empty.validate_and_create "a:b" "c" [] ContentSource.manual
        PublishMode.image_text_upload true 0).1.db.rows,
      ¬(c.title = "a" ∧ c.body = "b:c")) := by
  exact ⟨by decide, by decide, by decide, by decide⟩

end Xhs
